import Mathlib

/-!
Verification of the `conda_explicit_spec` export subsystem
(src/cli/project/export/conda_explicit_spec.rs).

The development shallowly embeds the data model and the pure core of the
exporter: classification of locked packages (conda vs PyPI), construction of
the explicit environment spec (`build_explicit_spec`), rendering of the PyPI
requirements text (`write_pypi_requirements`), and the orchestration in
`execute`. Filesystem writes are modelled as an accumulated list of
(file name, contents) pairs, where file names are relative to the process
working directory (the source joins every name onto `cwd()`); `tracing::warn!`
events are modelled as an accumulated list of warning strings; a Rust `panic!`
is modelled as a distinct outcome (`RunResult.panicked`), separate from a
returned `miette` error (`RunResult.err`), since a panic aborts the process
instead of propagating through the `miette::Result` channel.
-/

/-- Lowercase hexadecimal digit for a value below 16 (0-9 then a-f), as
produced by Rust's `LowerHex` formatting. -/
def hexDigit (n : Nat) : Char :=
  if n < 10 then Char.ofNat (48 + n) else Char.ofNat (87 + n)

/-- Two lowercase hex digits of one byte, most significant first. -/
def byteHex (b : Nat) : List Char :=
  [hexDigit (b / 16 % 16), hexDigit (b % 16)]

/-- Lowercase-hex rendering of a digest given as its list of bytes: the
semantics of `format!` with the lower-hex specifier applied to a digest value
(each byte printed as two lowercase hex digits, in order). -/
def formatLowerHex (bytes : List Nat) : String :=
  String.mk ((bytes.map byteHex).flatten)

/-- A parsed URL, reduced to the parts the exporter touches: the textual
rendering of everything before the fragment, and the optional fragment. -/
structure Url where
  base : String
  fragment : Option String
deriving DecidableEq, Repr

/-- `Url::set_fragment(Some _)` / `Url::set_fragment(None)`: replaces the
fragment component, overwriting any pre-existing fragment. -/
def Url.setFragment (u : Url) (f : Option String) : Url :=
  { u with fragment := f }

/-- `Url::as_str`: the textual form, with `#fragment` appended when present. -/
def Url.asStr (u : Url) : String :=
  u.base ++ (match u.fragment with | some f => "#" ++ f | none => "")

/-- A filesystem path as an OS string: `text` is `as_os_str().to_str()`
(`none` when the path is not valid Unicode), `debugRepr` is the `Debug`
rendering used in the source's panic message. -/
structure OsPath where
  text : Option String
  debugRepr : String
deriving DecidableEq, Repr

/-- `rattler_lock::UrlOrPath`. -/
inductive UrlOrPath where
  | url (u : Url)
  | path (p : OsPath)
deriving DecidableEq, Repr

/-- `rattler_lock::PackageHashes` for PyPI records. -/
inductive PackageHashes where
  | Md5 (h : List Nat)
  | Sha256 (h : List Nat)
  | Md5Sha256 (m : List Nat) (s : List Nat)
deriving DecidableEq, Repr

/-- The fields of `rattler_conda_types::PackageRecord` read by the exporter:
the normalized name (`name.as_normalized()`) and the two optional digests. -/
structure PackageRecord where
  name : String
  md5 : Option (List Nat)
  sha256 : Option (List Nat)
deriving DecidableEq, Repr

/-- `rattler_lock::CondaPackage`: a package record plus its location URL
(`cp.package_record()` and `cp.url()`). -/
structure CondaPackage where
  package_record : PackageRecord
  url : Url
deriving DecidableEq, Repr

/-- `rattler_lock::PypiPackageData`: the fields read by the exporter. -/
structure PypiPackageData where
  url_or_path : UrlOrPath
  hash : Option PackageHashes
  editable : Bool
deriving DecidableEq, Repr

/-- `rattler_lock::PypiPackage`, a handle over its package data. -/
structure PypiPackage where
  data : PypiPackageData
deriving DecidableEq, Repr

/-- `PypiPackage::url()`. -/
def PypiPackage.url (p : PypiPackage) : UrlOrPath :=
  p.data.url_or_path

/-- `PypiPackage::is_editable()`. -/
def PypiPackage.is_editable (p : PypiPackage) : Bool :=
  p.data.editable

/-- `rattler_lock::Package`. -/
inductive Package where
  | Conda (p : CondaPackage)
  | Pypi (p : PypiPackage)
deriving DecidableEq, Repr

/-- `rattler_conda_types::ExplicitEnvironmentEntry`. -/
structure ExplicitEnvironmentEntry where
  url : Url
deriving DecidableEq, Repr

/-- `rattler_conda_types::ExplicitEnvironmentSpec` (platform modelled by its
display string). -/
structure ExplicitEnvironmentSpec where
  platform : Option String
  packages : List ExplicitEnvironmentEntry
deriving DecidableEq, Repr

/-- Outcome of a fallible piece of the exporter: a value, a returned
`miette` error (with its message), or a process `panic` (with its message). -/
inductive RunResult (α : Type) where
  | ok (a : α)
  | err (msg : String)
  | panicked (msg : String)
deriving DecidableEq, Repr

deriving instance DecidableEq for Except

/-- The message of the error raised in `build_explicit_spec` when a conda
package record has no md5 digest (source lines 54-57). -/
def integrityErrorMsg (name : String) : String :=
  "Package " ++ name ++ " does not contain an md5 hash"

/-- The loop body of `build_explicit_spec` (source lines 51-64): iterate the
conda packages in order; for each, require the record's md5 digest (erroring
with `integrityErrorMsg` otherwise), set the URL's fragment to its
lowercase-hex rendering, and push the entry. -/
def buildExplicitEntries : List CondaPackage → Except String (List ExplicitEnvironmentEntry)
  | [] => Except.ok []
  | cp :: rest =>
    match cp.package_record.md5 with
    | none => Except.error (integrityErrorMsg cp.package_record.name)
    | some h =>
      match buildExplicitEntries rest with
      | Except.error e => Except.error e
      | Except.ok es =>
          Except.ok ({ url := cp.url.setFragment (some (formatLowerHex h)) } :: es)

/-- `build_explicit_spec` (source lines 45-70). -/
def build_explicit_spec (platform : String) (conda_packages : List CondaPackage) :
    Except String ExplicitEnvironmentSpec :=
  match buildExplicitEntries conda_packages with
  | Except.error e => Except.error e
  | Except.ok packages => Except.ok { platform := some platform, packages := packages }

/-- Serialization of an explicit environment spec as produced by the external
library call `ExplicitEnvironmentSpec::to_spec_string`. Modelled from the
spec: the repository delegates this rendering to an external collaborator
(`rattler_conda_types`); spec section 6 gives the shape as an `@EXPLICIT`
marker, a platform-identifier line, then one URL line per entry in order. -/
def to_spec_string (s : ExplicitEnvironmentSpec) : String :=
  "@EXPLICIT\n"
    ++ (match s.platform with | some p => p ++ "\n" | none => "")
    ++ String.join (s.packages.map (fun e => e.url.asStr ++ "\n"))

/-- The contents written by `write_explicit_spec` (source lines 72-84): the
one-line provenance comment followed by the canonical serialization. -/
def specFileContents (exp_env_spec : ExplicitEnvironmentSpec) : String :=
  "# Generated by `pixi project export`\n" ++ to_spec_string exp_env_spec

/-- `get_pypi_hash_str` (source lines 86-97): sha256 is preferred whenever
present (also on a combined md5+sha256 record); md5 is used only when it is
the record's sole digest. -/
def get_pypi_hash_str (package_data : PypiPackageData) : Option String :=
  match package_data.hash with
  | some (PackageHashes.Sha256 h) => some ("--hash=sha256:" ++ formatLowerHex h)
  | some (PackageHashes.Md5Sha256 _ h) => some ("--hash=sha256:" ++ formatLowerHex h)
  | some (PackageHashes.Md5 h) => some ("--hash=md5:" ++ formatLowerHex h)
  | none => none

/-- One bounded step list of Rust's `str::trim_start_matches` on lists of
characters: repeatedly remove the pattern while it is a prefix. The fuel is
an upper bound on the number of possible removals; `trimLeadingList` supplies
the string's length, which suffices because each removal consumes at least
one character of a non-empty pattern. -/
def trimLeadingAux (pre : List Char) : Nat → List Char → List Char
  | 0, s => s
  | Nat.succ n, s =>
    if pre ≠ [] ∧ pre.isPrefixOf s then trimLeadingAux pre n (s.drop pre.length)
    else s

/-- Rust's `str::trim_start_matches` on character lists. -/
def trimLeadingList (pre s : List Char) : List Char :=
  trimLeadingAux pre s.length s

/-- Rust's `str::trim_start_matches`: repeatedly strip every leading
occurrence of the pattern. -/
def trimStartMatches (pre s : String) : String :=
  String.mk (trimLeadingList pre.data s.data)

/-- The location-text computation of `write_pypi_requirements` (source lines
107-115): a URL yields its text and hash eligibility; a local path yields its
text (ineligible for a hash) when representable, and otherwise panics with
the source's message. -/
def pypiLocationText (p : PypiPackage) : RunResult (String × Bool) :=
  match p.url with
  | UrlOrPath.url u => RunResult.ok (u.asStr, true)
  | UrlOrPath.path pp =>
    match pp.text with
    | some s => RunResult.ok (s, false)
    | none => RunResult.panicked ("Could not convert " ++ pp.debugRepr ++ " to str")

/-- The `hash` binding of `write_pypi_requirements` (source lines 120-124):
the (possibly empty) text appended after the location, including its leading
space. -/
def pypiHashSuffix (include_hash : Bool) (package_data : PypiPackageData) : String :=
  match include_hash, get_pypi_hash_str package_data with
  | true, some h => " " ++ h
  | false, _ => ""
  | _, none => ""

/-- The body of one requirement line before the editable marker and the
newline: the trimmed location text followed by the hash suffix. -/
def pypiLineCore (p : PypiPackage) : RunResult String :=
  match pypiLocationText p with
  | RunResult.ok (s, include_hash) =>
      RunResult.ok (trimStartMatches "direct+" s ++ pypiHashSuffix include_hash p.data)
  | RunResult.err m => RunResult.err m
  | RunResult.panicked m => RunResult.panicked m

/-- One rendered requirement line (source lines 126-130): the editable
marker when `is_editable`, the line body, and the terminating newline. -/
def renderPypiLine (p : PypiPackage) : RunResult String :=
  match pypiLineCore p with
  | RunResult.ok core =>
      RunResult.ok ((if p.is_editable then "-e " else "") ++ core ++ "\n")
  | RunResult.err m => RunResult.err m
  | RunResult.panicked m => RunResult.panicked m

/-- The `reqs` string built by `write_pypi_requirements` (source lines
103-131): the concatenation of the rendered lines in input order; any panic
while rendering aborts the whole rendering. -/
def write_pypi_requirements_content : List PypiPackage → RunResult String
  | [] => RunResult.ok ""
  | p :: rest =>
    match renderPypiLine p with
    | RunResult.ok line =>
      match write_pypi_requirements_content rest with
      | RunResult.ok s => RunResult.ok (line ++ s)
      | RunResult.err m => RunResult.err m
      | RunResult.panicked m => RunResult.panicked m
    | RunResult.err m => RunResult.err m
    | RunResult.panicked m => RunResult.panicked m

/-- The two CLI flags consumed by the core (`--ignore-pypi-errors` and
`--write-pypi-requirements`); clap declares them mutually exclusive via
`conflicts_with`. -/
structure Args where
  ignore_pypi_errors : Bool
  write_pypi_requirements : Bool
deriving DecidableEq, Repr

/-- The message of `miette::bail!` in the classification loop (source lines
184-187). The source writes the string with a backslash line continuation,
which joins the two literal lines with no separating space, producing
"erroror" at the seam. -/
def pypiUnsupportedMsg : String :=
  "PyPI packages are not supported. Specify `--ignore-pypi-errors` to ignore this erroror `--write-pypi-requirements` to write pypi requirements to a separate requirements.txt file"

/-- The text of the `tracing::warn!` event emitted when a PyPI package is
ignored (source line 180). -/
def pypiIgnoredWarning : String :=
  "ignoring PyPI package since PyPI packages are not supported"

/-- The classification loop of `execute` (source lines 175-191): split the
package list in order into conda and PyPI packages; a PyPI package is
ignored with a warning under `--ignore-pypi-errors`, collected under
`--write-pypi-requirements`, and otherwise aborts the export with
`pypiUnsupportedMsg`. Returns (conda packages, pypi packages, warnings). -/
def classify (args : Args) :
    List Package → Except String (List CondaPackage × List PypiPackage × List String)
  | [] => Except.ok ([], [], [])
  | Package.Conda p :: rest =>
    match classify args rest with
    | Except.error e => Except.error e
    | Except.ok (cs, ps, ws) => Except.ok (p :: cs, ps, ws)
  | Package.Pypi p :: rest =>
    if args.ignore_pypi_errors then
      match classify args rest with
      | Except.error e => Except.error e
      | Except.ok (cs, ps, ws) => Except.ok (cs, ps, pypiIgnoredWarning :: ws)
    else if args.write_pypi_requirements then
      match classify args rest with
      | Except.error e => Except.error e
      | Except.ok (cs, ps, ws) => Except.ok (cs, p :: ps, ws)
    else Except.error pypiUnsupportedMsg

/-- The name of the pinned spec file (source lines 196-202), relative to the
current working directory. -/
def specFileName (platform envName : String) : String :=
  "conda-" ++ platform ++ "-" ++ envName ++ ".lock"

/-- The name of the requirements file (source lines 208-214), relative to the
current working directory. -/
def reqFileName (platform envName : String) : String :=
  "requirements-" ++ platform ++ "-" ++ envName ++ ".txt"

/-- Observable outcome of one `execute` run past lock selection: the files
written (name relative to the working directory, contents), the warning
events emitted, and the final result. -/
structure ExecResult where
  writes : List (String × String)
  warnings : List String
  result : RunResult Unit
deriving DecidableEq, Repr

/-- The core of `execute` (source lines 172-219), starting from the
per-platform package list of the selected environment: classify the
packages, build the explicit spec, write the spec file, and, when
`--write-pypi-requirements` is set, render and write the requirements file
after it. Filesystem writes are modelled as always succeeding. -/
def execute (args : Args) (platform envName : String) (packages : List Package) : ExecResult :=
  match classify args packages with
  | Except.error e => { writes := [], warnings := [], result := RunResult.err e }
  | Except.ok (conda, pypi, warns) =>
    match build_explicit_spec platform conda with
    | Except.error e => { writes := [], warnings := warns, result := RunResult.err e }
    | Except.ok ees =>
      let specWrite := (specFileName platform envName, specFileContents ees)
      if args.write_pypi_requirements then
        match write_pypi_requirements_content pypi with
        | RunResult.ok reqs =>
            { writes := [specWrite, (reqFileName platform envName, reqs)],
              warnings := warns, result := RunResult.ok () }
        | RunResult.err m =>
            { writes := [specWrite], warnings := warns, result := RunResult.err m }
        | RunResult.panicked m =>
            { writes := [specWrite], warnings := warns, result := RunResult.panicked m }
      else
        { writes := [specWrite], warnings := warns, result := RunResult.ok () }

/-- The conda packages of a package list, in order (the contents of
`conda_packages_from_lockfile` when classification succeeds). -/
def condaPackagesOf : List Package → List CondaPackage
  | [] => []
  | Package.Conda p :: rest => p :: condaPackagesOf rest
  | Package.Pypi _ :: rest => condaPackagesOf rest

/-- The number of PyPI packages in a package list. -/
def pypiCountOf : List Package → Nat
  | [] => 0
  | Package.Conda _ :: rest => pypiCountOf rest
  | Package.Pypi _ :: rest => pypiCountOf rest + 1

/-- The reading of prefix stripping in which a single leading occurrence of
the direct-reference marker is removed and every other occurrence is left in
place (the claim's wording, to be compared with the source's repeated
`trim_start_matches`). -/
def stripDirectOnce (s : String) : String :=
  if ("direct+".data).isPrefixOf s.data then String.mk (s.data.drop 7) else s

/-- Concrete conda packages for evaluation: both carry an md5 digest, the
first also a pre-existing URL fragment, and the two share one location. -/
def w1pkgs : List CondaPackage :=
  [{ package_record := { name := "foo", md5 := some [171, 1], sha256 := none },
     url := { base := "https://conda.example/foo.conda", fragment := some "oldfrag" } },
   { package_record := { name := "bar", md5 := some [0, 255], sha256 := some [1] },
     url := { base := "https://conda.example/foo.conda", fragment := none } }]

/-- Neither policy flag set. -/
def argsNeither : Args := { ignore_pypi_errors := false, write_pypi_requirements := false }

/-- Only `--ignore-pypi-errors` set. -/
def argsIgnore : Args := { ignore_pypi_errors := true, write_pypi_requirements := false }

/-- Only `--write-pypi-requirements` set. -/
def argsWriteReqs : Args := { ignore_pypi_errors := false, write_pypi_requirements := true }

/-- A conda package whose record has a sha256 digest but no md5 digest. -/
def condaNoMd5 : CondaPackage :=
  { package_record := { name := "foo", md5 := none, sha256 := some [7] },
    url := { base := "https://conda.example/foo.conda", fragment := none } }

/-- A conda package whose record has an md5 digest. -/
def condaWithMd5 : CondaPackage :=
  { package_record := { name := "baz", md5 := some [1, 2], sha256 := none },
    url := { base := "https://conda.example/baz.conda", fragment := none } }

/-- A package list with a single conda package that lacks an md5 digest. -/
def pkgsOnlyNoMd5 : List Package := [Package.Conda condaNoMd5]

/-- A PyPI package at a remote URL carrying both digests. -/
def pypiBothHashes : PypiPackage :=
  { data := { url_or_path := UrlOrPath.url { base := "https://files.example/a.whl", fragment := none },
              hash := some (PackageHashes.Md5Sha256 [1] [255, 0]),
              editable := false } }

/-- A conda package lacking md5 next to a PyPI package: classification order
puts the PyPI package after a native package. -/
def pkgsMixedNeither : List Package := [Package.Conda condaNoMd5, Package.Pypi pypiBothHashes]

/-- A PyPI package whose location URL begins with two copies of the
direct-reference marker (a URL scheme such as `direct+direct+https` is
syntactically valid). -/
def pypiDoubleDirect : PypiPackage :=
  { data := { url_or_path := UrlOrPath.url { base := "direct+direct+https://example.com/pkg.whl", fragment := none },
              hash := none, editable := false } }

/-- A PyPI package whose location URL has one leading direct-reference marker
and one interior occurrence of the marker text. -/
def pypiDirectInterior : PypiPackage :=
  { data := { url_or_path := UrlOrPath.url { base := "direct+https://example.com/a?x=direct+b", fragment := none },
              hash := none, editable := false } }

/-- A non-editable PyPI package at a local path whose text happens to begin
with the editable marker. -/
def pypiDashEPath : PypiPackage :=
  { data := { url_or_path := UrlOrPath.path { text := some "-e x", debugRepr := "\"-e x\"" },
              hash := none, editable := false } }

/-- An editable PyPI package at a local path. -/
def pypiEditableLocal : PypiPackage :=
  { data := { url_or_path := UrlOrPath.path { text := some "./pkg-a", debugRepr := "\"./pkg-a\"" },
              hash := none, editable := true } }

/-- A non-editable PyPI package at a remote URL with no digest. -/
def pypiPlainUrl : PypiPackage :=
  { data := { url_or_path := UrlOrPath.url { base := "https://files.example/b.whl", fragment := none },
              hash := none, editable := false } }

/-- A PyPI package at a local path that is not representable as text. -/
def pypiBadPath : PypiPackage :=
  { data := { url_or_path := UrlOrPath.path { text := none, debugRepr := "\"badpath\"" },
              hash := none, editable := false } }

/-- One conda package with md5 next to one PyPI package. -/
def pkgsMixedOk : List Package := [Package.Conda condaWithMd5, Package.Pypi pypiBothHashes]

/-- Conda packages lacking md5 in order: `baz` (md5 present), `foo` (sha256
only), `bar` (no digest at all). -/
def w10pkgs : List CondaPackage :=
  [condaWithMd5, condaNoMd5,
   { package_record := { name := "bar", md5 := none, sha256 := none },
     url := { base := "https://conda.example/bar.conda", fragment := none } }]

/-! ## Helper lemmas -/

theorem buildExplicitEntries_all (ps : List CondaPackage)
    (h : ∀ p ∈ ps, (p.package_record.md5).isSome) :
    buildExplicitEntries ps = Except.ok (ps.map (fun p =>
      { url := p.url.setFragment (some (formatLowerHex (p.package_record.md5.getD []))) })) := by
  induction ps with
  | nil => rfl
  | cons cp rest ih =>
    have hcp : (cp.package_record.md5).isSome := h cp (List.mem_cons_self cp rest)
    have hrest : ∀ p ∈ rest, (p.package_record.md5).isSome :=
      fun p hp => h p (List.mem_cons_of_mem cp hp)
    obtain ⟨d, hd⟩ := Option.isSome_iff_exists.mp hcp
    simp [buildExplicitEntries, hd, ih hrest]

theorem buildExplicitEntries_error_iff (ps : List CondaPackage) :
    (∃ e, buildExplicitEntries ps = Except.error e) ↔
      ∃ p ∈ ps, p.package_record.md5 = none := by
  induction ps with
  | nil =>
    constructor
    · rintro ⟨e, he⟩
      exact absurd he (by simp [buildExplicitEntries])
    · rintro ⟨p, hp, _⟩
      exact absurd hp (List.not_mem_nil p)
  | cons cp rest ih =>
    cases hd : cp.package_record.md5 with
    | none =>
      constructor
      · intro _
        exact ⟨cp, List.mem_cons_self cp rest, hd⟩
      · intro _
        exact ⟨integrityErrorMsg cp.package_record.name, by simp [buildExplicitEntries, hd]⟩
    | some d =>
      cases hb : buildExplicitEntries rest with
      | error e =>
        constructor
        · intro _
          obtain ⟨p, hp, hpn⟩ := ih.mp ⟨e, hb⟩
          exact ⟨p, List.mem_cons_of_mem cp hp, hpn⟩
        · intro _
          exact ⟨e, by simp [buildExplicitEntries, hd, hb]⟩
      | ok es =>
        constructor
        · rintro ⟨e, he⟩
          simp [buildExplicitEntries, hd, hb] at he
        · rintro ⟨p, hp, hpn⟩
          rcases List.mem_cons.mp hp with h1 | h2
          · rw [h1, hd] at hpn
            cases hpn
          · obtain ⟨e, he⟩ := ih.mpr ⟨p, h2, hpn⟩
            rw [hb] at he
            cases he

theorem buildExplicitEntries_error_mem (ps : List CondaPackage) (e : String)
    (h : buildExplicitEntries ps = Except.error e) :
    ∃ p ∈ ps, p.package_record.md5 = none ∧ e = integrityErrorMsg p.package_record.name := by
  induction ps with
  | nil => simp [buildExplicitEntries] at h
  | cons cp rest ih =>
    cases hd : cp.package_record.md5 with
    | none =>
      have he : integrityErrorMsg cp.package_record.name = e := by
        simpa [buildExplicitEntries, hd] using h
      exact ⟨cp, List.mem_cons_self cp rest, hd, he.symm⟩
    | some d =>
      cases hb : buildExplicitEntries rest with
      | error e2 =>
        have he2 : e2 = e := by
          simpa [buildExplicitEntries, hd, hb] using h
        obtain ⟨p, hp, hpn, hpe⟩ := ih (by rw [hb, he2])
        exact ⟨p, List.mem_cons_of_mem cp hp, hpn, hpe⟩
      | ok es =>
        simp [buildExplicitEntries, hd, hb] at h

theorem buildExplicitEntries_find (ps : List CondaPackage) (p : CondaPackage)
    (h : ps.find? (fun q => q.package_record.md5.isNone) = some p) :
    buildExplicitEntries ps = Except.error (integrityErrorMsg p.package_record.name) := by
  induction ps with
  | nil => simp at h
  | cons cp rest ih =>
    cases hd : cp.package_record.md5 with
    | none =>
      rw [List.find?_cons_of_pos _ (by simp [hd])] at h
      obtain rfl : cp = p := Option.some.inj h
      simp [buildExplicitEntries, hd]
    | some d =>
      rw [List.find?_cons_of_neg _ (by simp [hd])] at h
      simp [buildExplicitEntries, hd, ih h]

theorem classify_ignore (args : Args) (packages : List Package)
    (hig : args.ignore_pypi_errors = true) :
    classify args packages = Except.ok (condaPackagesOf packages, [],
      List.replicate (pypiCountOf packages) pypiIgnoredWarning) := by
  induction packages with
  | nil => rfl
  | cons pkg rest ih =>
    cases pkg with
    | Conda c => simp [classify, ih, condaPackagesOf, pypiCountOf]
    | Pypi q => simp [classify, hig, ih, condaPackagesOf, pypiCountOf, List.replicate_succ]

theorem classify_bail (args : Args) (packages : List Package)
    (hig : args.ignore_pypi_errors = false) (hwr : args.write_pypi_requirements = false)
    (q : PypiPackage) (hq : Package.Pypi q ∈ packages) :
    classify args packages = Except.error pypiUnsupportedMsg := by
  induction packages with
  | nil => simp at hq
  | cons pkg rest ih =>
    cases pkg with
    | Conda c =>
      have hq2 : Package.Pypi q ∈ rest := by
        rcases List.mem_cons.mp hq with h1 | h2
        · simp at h1
        · exact h2
      simp [classify, ih hq2]
    | Pypi r => simp [classify, hig, hwr]

theorem pypiCountOf_pos (packages : List Package) (q : PypiPackage)
    (hq : Package.Pypi q ∈ packages) : 0 < pypiCountOf packages := by
  induction packages with
  | nil => simp at hq
  | cons pkg rest ih =>
    cases pkg with
    | Conda c =>
      rcases List.mem_cons.mp hq with h1 | h2
      · simp at h1
      · simpa [pypiCountOf] using ih h2
    | Pypi r =>
      show 0 < pypiCountOf rest + 1
      omega

/-! ## Claim theorems -/

/-- Claim C1: for every list of conda packages in which every record carries
an md5 digest, `build_explicit_spec` succeeds, and its entries are the input
packages in input order (no sorting, no deduplication), each entry being the
package's location URL with the fragment set (overwriting any previous
fragment) to the lowercase-hex rendering of the md5 digest. -/
theorem build_explicit_spec_preserves_order (platform : String) (ps : List CondaPackage)
    (h : ∀ p ∈ ps, (p.package_record.md5).isSome) :
    build_explicit_spec platform ps =
      Except.ok { platform := some platform,
                  packages := ps.map (fun p =>
                    { url := p.url.setFragment
                        (some (formatLowerHex (p.package_record.md5.getD []))) }) } := by
  simp [build_explicit_spec, buildExplicitEntries_all ps h]

theorem build_explicit_spec_preserves_order_witness :
    (∀ p ∈ w1pkgs, (p.package_record.md5).isSome) ∧
    build_explicit_spec "linux-64" w1pkgs =
      Except.ok { platform := some "linux-64",
                  packages := w1pkgs.map (fun p =>
                    { url := p.url.setFragment
                        (some (formatLowerHex (p.package_record.md5.getD []))) }) } :=
  ⟨by decide, build_explicit_spec_preserves_order "linux-64" w1pkgs (by decide)⟩

/-- Claim C2: `build_explicit_spec` errors iff at least one selected conda
package has no (md5) digest; the error is the integrity message naming an
offending package, and when the export fails this way no file has been
written (the spec file write happens only after building succeeds). -/
theorem build_explicit_spec_error_iff_missing_md5 (args : Args) (platform envName : String)
    (packages : List Package) (conda : List CondaPackage) (pypi : List PypiPackage)
    (warns : List String)
    (hc : classify args packages = Except.ok (conda, pypi, warns)) :
    ((∃ e, build_explicit_spec platform conda = Except.error e) ↔
        ∃ p ∈ conda, p.package_record.md5 = none) ∧
    (∀ e, build_explicit_spec platform conda = Except.error e →
        (∃ p ∈ conda, p.package_record.md5 = none ∧
            e = integrityErrorMsg p.package_record.name) ∧
        (execute args platform envName packages).writes = []) := by
  constructor
  · rw [← buildExplicitEntries_error_iff]
    constructor
    · rintro ⟨e, he⟩
      cases hb : buildExplicitEntries conda with
      | error e2 => exact ⟨e2, rfl⟩
      | ok es => simp [build_explicit_spec, hb] at he
    · rintro ⟨e, he⟩
      exact ⟨e, by simp [build_explicit_spec, he]⟩
  · intro e he
    have hb : buildExplicitEntries conda = Except.error e := by
      cases hb2 : buildExplicitEntries conda with
      | error e2 =>
        have h3 : e2 = e := by simpa [build_explicit_spec, hb2] using he
        exact congrArg Except.error h3
      | ok es => simp [build_explicit_spec, hb2] at he
    refine ⟨buildExplicitEntries_error_mem conda e hb, ?_⟩
    simp [execute, hc, build_explicit_spec, hb]

theorem build_explicit_spec_error_iff_missing_md5_witness :
    classify argsNeither pkgsOnlyNoMd5 = Except.ok ([condaNoMd5], [], []) ∧
    (∃ p ∈ [condaNoMd5], p.package_record.md5 = none) ∧
    build_explicit_spec "linux-64" [condaNoMd5] = Except.error (integrityErrorMsg "foo") ∧
    (execute argsNeither "linux-64" "default" pkgsOnlyNoMd5).writes = [] := by
  have h := build_explicit_spec_error_iff_missing_md5 argsNeither "linux-64" "default"
    pkgsOnlyNoMd5 [condaNoMd5] [] [] (by decide)
  exact ⟨by decide, ⟨condaNoMd5, by decide, by decide⟩, by decide,
    (h.2 (integrityErrorMsg "foo") (by decide)).2⟩

/-- Claim C10: `build_explicit_spec` treats only the md5 field as the usable
digest: the export fails exactly with the integrity error naming the first
package (in input order) whose md5 field is absent, regardless of any sha256
digest on that record and regardless of later packages. -/
theorem md5_only_first_offender (platform : String) (ps : List CondaPackage) (p : CondaPackage)
    (h : ps.find? (fun q => q.package_record.md5.isNone) = some p) :
    build_explicit_spec platform ps = Except.error (integrityErrorMsg p.package_record.name) := by
  simp [build_explicit_spec, buildExplicitEntries_find ps p h]

theorem md5_only_first_offender_witness :
    w10pkgs.find? (fun q => q.package_record.md5.isNone) = some condaNoMd5 ∧
    (condaNoMd5.package_record.sha256).isSome ∧
    build_explicit_spec "linux-64" w10pkgs = Except.error (integrityErrorMsg "foo") :=
  ⟨by decide, by decide,
    md5_only_first_offender "linux-64" w10pkgs condaNoMd5 (by decide)⟩

set_option maxRecDepth 8000 in
/-- Claim C4: when the per-platform package list contains a PyPI package and
neither policy flag is set, the whole export fails with the configuration
error whose message names both remediation flags, regardless of what native
packages the list contains; nothing is written. -/
theorem pypi_unsupported_config_error (args : Args) (platform envName : String)
    (packages : List Package) (q : PypiPackage)
    (h1 : args.ignore_pypi_errors = false) (h2 : args.write_pypi_requirements = false)
    (hq : Package.Pypi q ∈ packages) :
    (execute args platform envName packages).result = RunResult.err pypiUnsupportedMsg ∧
    (execute args platform envName packages).writes = [] ∧
    List.IsInfix ("--ignore-pypi-errors".data) pypiUnsupportedMsg.data ∧
    List.IsInfix ("--write-pypi-requirements".data) pypiUnsupportedMsg.data := by
  have hcls := classify_bail args packages h1 h2 q hq
  refine ⟨?_, ?_, ?_, ?_⟩
  · simp [execute, hcls]
  · simp [execute, hcls]
  · decide
  · decide

theorem pypi_unsupported_config_error_witness :
    (execute argsNeither "linux-64" "default" pkgsMixedNeither).result =
      RunResult.err pypiUnsupportedMsg ∧
    (execute argsNeither "linux-64" "default" pkgsMixedNeither).writes = [] ∧
    List.IsInfix ("--ignore-pypi-errors".data) pypiUnsupportedMsg.data ∧
    List.IsInfix ("--write-pypi-requirements".data) pypiUnsupportedMsg.data :=
  pypi_unsupported_config_error argsNeither "linux-64" "default" pkgsMixedNeither
    pypiBothHashes rfl rfl (by decide)

/-- Claim C8: with `--ignore-pypi-errors` set (and the conflicting
requirements flag unset, as clap enforces), a package list containing a PyPI
package does not fail the export: the PyPI packages are dropped, one warning
event is emitted per PyPI package, the pinned spec is built from the conda
packages only and is the only file written (no requirements file). -/
theorem ignore_pypi_drops_and_warns (args : Args) (platform envName : String)
    (packages : List Package) (q : PypiPackage)
    (hig : args.ignore_pypi_errors = true)
    (hwr : args.write_pypi_requirements = false)
    (hq : Package.Pypi q ∈ packages)
    (hmd5 : ∀ p ∈ condaPackagesOf packages, (p.package_record.md5).isSome) :
    ∃ ees, build_explicit_spec platform (condaPackagesOf packages) = Except.ok ees ∧
      (execute args platform envName packages).result = RunResult.ok () ∧
      (execute args platform envName packages).writes =
        [(specFileName platform envName, specFileContents ees)] ∧
      (execute args platform envName packages).warnings =
        List.replicate (pypiCountOf packages) pypiIgnoredWarning ∧
      0 < pypiCountOf packages := by
  have hcls := classify_ignore args packages hig
  have hb := buildExplicitEntries_all (condaPackagesOf packages) hmd5
  refine ⟨{ platform := some platform,
            packages := (condaPackagesOf packages).map (fun p =>
              { url := p.url.setFragment
                  (some (formatLowerHex (p.package_record.md5.getD []))) }) },
    ?_, ?_, ?_, ?_, pypiCountOf_pos packages q hq⟩
  · simp [build_explicit_spec, hb]
  · simp [execute, hcls, build_explicit_spec, hb, hwr]
  · simp [execute, hcls, build_explicit_spec, hb, hwr]
  · simp [execute, hcls, build_explicit_spec, hb, hwr]

theorem ignore_pypi_drops_and_warns_witness :
    (∀ p ∈ condaPackagesOf pkgsMixedOk, (p.package_record.md5).isSome) ∧
    ∃ ees, build_explicit_spec "linux-64" (condaPackagesOf pkgsMixedOk) = Except.ok ees ∧
      (execute argsIgnore "linux-64" "default" pkgsMixedOk).result = RunResult.ok () ∧
      (execute argsIgnore "linux-64" "default" pkgsMixedOk).writes =
        [(specFileName "linux-64" "default", specFileContents ees)] ∧
      (execute argsIgnore "linux-64" "default" pkgsMixedOk).warnings =
        List.replicate (pypiCountOf pkgsMixedOk) pypiIgnoredWarning ∧
      0 < pypiCountOf pkgsMixedOk :=
  ⟨by decide, ignore_pypi_drops_and_warns argsIgnore "linux-64" "default" pkgsMixedOk
    pypiBothHashes rfl rfl (by decide) (by decide)⟩

/-- Claim C9: whenever the export succeeds, the first file written (into the
working directory) is named `conda-<platform>-<environment>.lock` and its
contents are the provenance comment line followed by the canonical
explicit-spec serialization; when the requirements file is requested it is
written second, named `requirements-<platform>-<environment>.txt`. -/
theorem output_files_naming (args : Args) (platform envName : String)
    (packages : List Package)
    (h : (execute args platform envName packages).result = RunResult.ok ()) :
    ∃ ees reqs,
      (execute args platform envName packages).writes =
        ("conda-" ++ platform ++ "-" ++ envName ++ ".lock",
          "# Generated by `pixi project export`\n" ++ to_spec_string ees) ::
        (if args.write_pypi_requirements then
            [("requirements-" ++ platform ++ "-" ++ envName ++ ".txt", reqs)]
          else []) := by
  cases hc : classify args packages with
  | error e => simp [execute, hc] at h
  | ok t =>
    obtain ⟨conda, pypi, warns⟩ := t
    cases hb : build_explicit_spec platform conda with
    | error e => simp [execute, hc, hb] at h
    | ok ees =>
      by_cases hw : args.write_pypi_requirements
      · cases hr : write_pypi_requirements_content pypi with
        | ok reqs =>
          refine ⟨ees, reqs, ?_⟩
          simp [execute, hc, hb, hr, hw, specFileName, reqFileName, specFileContents]
        | err m => simp [execute, hc, hb, hr, hw] at h
        | panicked m => simp [execute, hc, hb, hr, hw] at h
      · refine ⟨ees, "", ?_⟩
        simp [execute, hc, hb, hw, specFileName, specFileContents]

theorem output_files_naming_witness :
    (execute argsWriteReqs "linux-64" "default" pkgsMixedOk).result = RunResult.ok () ∧
    ∃ ees reqs,
      (execute argsWriteReqs "linux-64" "default" pkgsMixedOk).writes =
        ("conda-" ++ "linux-64" ++ "-" ++ "default" ++ ".lock",
          "# Generated by `pixi project export`\n" ++ to_spec_string ees) ::
        (if argsWriteReqs.write_pypi_requirements then
            [("requirements-" ++ "linux-64" ++ "-" ++ "default" ++ ".txt", reqs)]
          else []) :=
  ⟨by decide, output_files_naming argsWriteReqs "linux-64" "default" pkgsMixedOk (by decide)⟩

theorem trimLeadingAux_split (pre : List Char) (hpre : pre ≠ []) :
    ∀ (n : Nat) (s : List Char), s.length ≤ n →
      ∃ k, s = (List.replicate k pre).flatten ++ trimLeadingAux pre n s ∧
        pre.isPrefixOf (trimLeadingAux pre n s) = false := by
  intro n
  induction n with
  | zero =>
    intro s hs
    have hs0 : s = [] := List.length_eq_zero.mp (Nat.le_zero.mp hs)
    subst hs0
    refine ⟨0, by simp [trimLeadingAux], ?_⟩
    cases pre with
    | nil => exact absurd rfl hpre
    | cons a l => rfl
  | succ n ih =>
    intro s hs
    by_cases hcond : pre ≠ [] ∧ pre.isPrefixOf s
    · have hpref : pre <+: s := List.isPrefixOf_iff_prefix.mp hcond.2
      have hplen : 0 < pre.length := List.length_pos.mpr hpre
      have hlen : pre.length ≤ s.length := hpref.length_le
      have hdrop : (s.drop pre.length).length ≤ n := by
        rw [List.length_drop]
        omega
      obtain ⟨k, hk1, hk2⟩ := ih (s.drop pre.length) hdrop
      have hstep : trimLeadingAux pre (n + 1) s = trimLeadingAux pre n (s.drop pre.length) := by
        show (if pre ≠ [] ∧ pre.isPrefixOf s then trimLeadingAux pre n (s.drop pre.length)
          else s) = trimLeadingAux pre n (s.drop pre.length)
        rw [if_pos hcond]
      have hsplit : s = pre ++ s.drop pre.length := by
        obtain ⟨t, ht⟩ := hpref
        rw [← ht, List.drop_left]
      refine ⟨k + 1, ?_, ?_⟩
      · rw [hstep]
        calc s = pre ++ s.drop pre.length := hsplit
          _ = pre ++ ((List.replicate k pre).flatten ++ trimLeadingAux pre n (s.drop pre.length)) := by
              rw [← hk1]
          _ = (List.replicate (k + 1) pre).flatten ++ trimLeadingAux pre n (s.drop pre.length) := by
              simp [List.replicate_succ, List.append_assoc]
      · rw [hstep]
        exact hk2
    · have heq : trimLeadingAux pre (n + 1) s = s := by
        show (if pre ≠ [] ∧ pre.isPrefixOf s then trimLeadingAux pre n (s.drop pre.length)
          else s) = s
        rw [if_neg hcond]
      refine ⟨0, by simp [heq], ?_⟩
      rw [heq]
      by_contra hfalse
      exact hcond ⟨hpre, by revert hfalse; cases pre.isPrefixOf s <;> simp⟩

theorem trimStartMatches_split (pre t : String) (hpre : pre.data ≠ []) :
    ∃ k, t.data = (List.replicate k pre.data).flatten ++ (trimStartMatches pre t).data ∧
      (pre.data).isPrefixOf (trimStartMatches pre t).data = false :=
  trimLeadingAux_split pre.data hpre t.data.length t.data (le_refl _)

/-- Claim C3: a local-path location never receives a hash suffix; a
remote-URL location renders with exactly the one hash suffix computed from
its record, which prefers the sha256 digest when both digests are present,
uses sha256 or md5 when alone, and is empty (without error) when the record
has no digest. -/
theorem pypi_hash_rules (p : PypiPackage) :
    (∀ pp t, p.data.url_or_path = UrlOrPath.path pp → pp.text = some t →
        renderPypiLine p = RunResult.ok ((if p.is_editable then "-e " else "") ++
          trimStartMatches "direct+" t ++ "\n")) ∧
    (∀ u, p.data.url_or_path = UrlOrPath.url u →
        renderPypiLine p = RunResult.ok ((if p.is_editable then "-e " else "") ++
          (trimStartMatches "direct+" u.asStr ++ pypiHashSuffix true p.data) ++ "\n")) ∧
    (∀ m s, p.data.hash = some (PackageHashes.Md5Sha256 m s) →
        pypiHashSuffix true p.data = " " ++ ("--hash=sha256:" ++ formatLowerHex s)) ∧
    (∀ s, p.data.hash = some (PackageHashes.Sha256 s) →
        pypiHashSuffix true p.data = " " ++ ("--hash=sha256:" ++ formatLowerHex s)) ∧
    (∀ m, p.data.hash = some (PackageHashes.Md5 m) →
        pypiHashSuffix true p.data = " " ++ ("--hash=md5:" ++ formatLowerHex m)) ∧
    (p.data.hash = none → pypiHashSuffix true p.data = "") ∧
    (pypiHashSuffix false p.data = "") := by
  refine ⟨?_, ?_, ?_, ?_, ?_, ?_, ?_⟩
  · intro pp t hpp ht
    simp [renderPypiLine, pypiLineCore, pypiLocationText, PypiPackage.url, hpp, ht,
      pypiHashSuffix]
  · intro u hu
    simp [renderPypiLine, pypiLineCore, pypiLocationText, PypiPackage.url, hu]
  · intro m s hh
    simp [pypiHashSuffix, get_pypi_hash_str, hh]
  · intro s hh
    simp [pypiHashSuffix, get_pypi_hash_str, hh]
  · intro m hh
    simp [pypiHashSuffix, get_pypi_hash_str, hh]
  · intro hh
    simp [pypiHashSuffix, get_pypi_hash_str, hh]
  · simp [pypiHashSuffix]

theorem pypi_hash_rules_witness :
    pypiBothHashes.data.hash = some (PackageHashes.Md5Sha256 [1] [255, 0]) ∧
    pypiHashSuffix true pypiBothHashes.data =
      " " ++ ("--hash=sha256:" ++ formatLowerHex [255, 0]) ∧
    renderPypiLine pypiBothHashes =
      RunResult.ok ((if pypiBothHashes.is_editable then "-e " else "") ++
        (trimStartMatches "direct+"
            ({ base := "https://files.example/a.whl", fragment := none } : Url).asStr ++
          pypiHashSuffix true pypiBothHashes.data) ++ "\n") := by
  refine ⟨rfl, ?_, ?_⟩
  · exact (pypi_hash_rules pypiBothHashes).2.2.1 [1] [255, 0] rfl
  · exact (pypi_hash_rules pypiBothHashes).2.1 _ rfl

/-- Claim C5 counterexample: on a location whose text begins with two copies
of the direct-reference marker, the renderer removes both (Rust's
`trim_start_matches` strips repeatedly), whereas stripping the prefix once
and preserving the remaining occurrence would keep the second copy. -/
theorem trim_direct_counterexample :
    pypiLineCore pypiDoubleDirect = RunResult.ok "https://example.com/pkg.whl" ∧
    stripDirectOnce "direct+direct+https://example.com/pkg.whl" =
      "direct+https://example.com/pkg.whl" ∧
    pypiLineCore pypiDoubleDirect ≠
      RunResult.ok (stripDirectOnce "direct+direct+https://example.com/pkg.whl") := by
  refine ⟨by decide, by decide, by decide⟩

/-- Claim C5 amended: the renderer removes the whole leading run of
direct-reference markers from the location text (repeatedly, not once); the
emitted text is a contiguous suffix of the location text, so every
occurrence after the leading run is preserved, and nothing else in the line
is affected. -/
theorem trim_direct_leading_run (p : PypiPackage) (t : String) (b : Bool)
    (h : pypiLocationText p = RunResult.ok (t, b)) :
    pypiLineCore p =
      RunResult.ok (trimStartMatches "direct+" t ++ pypiHashSuffix b p.data) ∧
    (∃ k, t.data = (List.replicate k ("direct+".data)).flatten ++
        (trimStartMatches "direct+" t).data) ∧
    ("direct+".data).isPrefixOf (trimStartMatches "direct+" t).data = false := by
  obtain ⟨k, hk1, hk2⟩ := trimStartMatches_split "direct+" t (by decide)
  refine ⟨?_, ⟨k, hk1⟩, hk2⟩
  simp [pypiLineCore, h]

theorem trim_direct_leading_run_witness :
    pypiLocationText pypiDirectInterior =
      RunResult.ok ("direct+https://example.com/a?x=direct+b", true) ∧
    (pypiLineCore pypiDirectInterior =
      RunResult.ok (trimStartMatches "direct+" "direct+https://example.com/a?x=direct+b" ++
        pypiHashSuffix true pypiDirectInterior.data) ∧
    (∃ k, ("direct+https://example.com/a?x=direct+b").data =
        (List.replicate k ("direct+".data)).flatten ++
          (trimStartMatches "direct+" "direct+https://example.com/a?x=direct+b").data) ∧
    ("direct+".data).isPrefixOf
        (trimStartMatches "direct+" "direct+https://example.com/a?x=direct+b").data = false) :=
  ⟨by decide, trim_direct_leading_run pypiDirectInterior
    "direct+https://example.com/a?x=direct+b" true (by decide)⟩

/-- Claim C6 counterexample: the rendered line starting with the editable
marker is not equivalent to the package being editable: a non-editable
package at the local path "-e x" renders as "-e x\n", which begins with the
marker text. -/
theorem editable_marker_counterexample :
    ¬ (∀ (q : PypiPackage) (line : String), renderPypiLine q = RunResult.ok line →
        ((("-e ".data).isPrefixOf line.data = true) ↔ q.is_editable = true)) := by
  intro hall
  have h1 : renderPypiLine pypiDashEPath = RunResult.ok "-e x\n" := by decide
  have h2 := (hall pypiDashEPath "-e x\n" h1).mp (by decide)
  exact absurd h2 (by decide)

/-- Claim C6 amended: the renderer emits, in input order, exactly one
newline-terminated line per package; an editable package's line is the
editable marker followed by the line body, and a non-editable package's line
is the body alone (so a non-editable line begins with the marker text only
when its own body does). -/
theorem editable_marker_amended (ps : List PypiPackage) (content : String)
    (h : write_pypi_requirements_content ps = RunResult.ok content) :
    ∃ lines : List String,
      content.data = (lines.map String.data).flatten ∧
      List.Forall₂ (fun p line => ∃ core, pypiLineCore p = RunResult.ok core ∧
        line = (if p.is_editable then "-e " else "") ++ core ++ "\n") ps lines := by
  induction ps generalizing content with
  | nil =>
    have hc : "" = content := by
      simpa [write_pypi_requirements_content] using h
    subst hc
    exact ⟨[], by simp, List.Forall₂.nil⟩
  | cons p rest ih =>
    cases hr : renderPypiLine p with
    | ok line =>
      cases hrest : write_pypi_requirements_content rest with
      | ok s =>
        have hc : line ++ s = content := by
          simpa [write_pypi_requirements_content, hr, hrest] using h
        obtain ⟨lines, hjoin, hfa⟩ := ih s hrest
        obtain ⟨core, hcore, hline⟩ : ∃ core, pypiLineCore p = RunResult.ok core ∧
            line = (if p.is_editable then "-e " else "") ++ core ++ "\n" := by
          cases hlc : pypiLineCore p with
          | ok core =>
            refine ⟨core, rfl, ?_⟩
            have h3 := hr
            simp [renderPypiLine, hlc] at h3
            exact h3.symm
          | err m => simp [renderPypiLine, hlc] at hr
          | panicked m => simp [renderPypiLine, hlc] at hr
        refine ⟨line :: lines, ?_, List.Forall₂.cons ⟨core, hcore, hline⟩ hfa⟩
        rw [← hc]
        simp [hjoin]
      | err m => simp [write_pypi_requirements_content, hr, hrest] at h
      | panicked m => simp [write_pypi_requirements_content, hr, hrest] at h
    | err m => simp [write_pypi_requirements_content, hr] at h
    | panicked m => simp [write_pypi_requirements_content, hr] at h

theorem editable_marker_amended_witness :
    write_pypi_requirements_content [pypiEditableLocal, pypiPlainUrl] =
      RunResult.ok "-e ./pkg-a\nhttps://files.example/b.whl\n" ∧
    ∃ lines : List String,
      ("-e ./pkg-a\nhttps://files.example/b.whl\n").data = (lines.map String.data).flatten ∧
      List.Forall₂ (fun p line => ∃ core, pypiLineCore p = RunResult.ok core ∧
        line = (if p.is_editable then "-e " else "") ++ core ++ "\n")
        [pypiEditableLocal, pypiPlainUrl] lines :=
  ⟨by decide, editable_marker_amended [pypiEditableLocal, pypiPlainUrl]
    "-e ./pkg-a\nhttps://files.example/b.whl\n" (by decide)⟩

/-- Claim C7 counterexample: a local path that is not representable as text
makes the renderer panic (aborting the process), rather than fail with a
returned, catchable error of the export. -/
theorem encoding_panic_counterexample :
    renderPypiLine pypiBadPath =
      RunResult.panicked "Could not convert \"badpath\" to str" ∧
    ¬ ∃ e, renderPypiLine pypiBadPath = RunResult.err e := by
  have h1 : renderPypiLine pypiBadPath =
      RunResult.panicked "Could not convert \"badpath\" to str" := by decide
  refine ⟨h1, ?_⟩
  rintro ⟨e, he⟩
  rw [h1] at he
  exact RunResult.noConfusion he

/-- Claim C7 amended: when a package's location is a local path with no
textual representation, the renderer aborts with a panic whose message names
the path's debug rendering; it never returns a catchable error for this
condition. -/
theorem encoding_failure_panics (p : PypiPackage) (pp : OsPath)
    (h1 : p.data.url_or_path = UrlOrPath.path pp) (h2 : pp.text = none) :
    renderPypiLine p =
      RunResult.panicked ("Could not convert " ++ pp.debugRepr ++ " to str") ∧
    ¬ ∃ e, renderPypiLine p = RunResult.err e := by
  have hl : pypiLocationText p =
      RunResult.panicked ("Could not convert " ++ pp.debugRepr ++ " to str") := by
    simp [pypiLocationText, PypiPackage.url, h1, h2]
  have hr : renderPypiLine p =
      RunResult.panicked ("Could not convert " ++ pp.debugRepr ++ " to str") := by
    simp [renderPypiLine, pypiLineCore, hl]
  refine ⟨hr, ?_⟩
  rintro ⟨e, he⟩
  rw [hr] at he
  exact RunResult.noConfusion he

theorem encoding_failure_panics_witness :
    renderPypiLine pypiBadPath =
      RunResult.panicked ("Could not convert " ++ "\"badpath\"" ++ " to str") ∧
    ¬ ∃ e, renderPypiLine pypiBadPath = RunResult.err e :=
  encoding_failure_panics pypiBadPath
    { text := none, debugRepr := "\"badpath\"" } rfl rfl
